import Mathlib

/-!
Shallow embedding of `scripts/train.py` from the interlacer repository.

The script is a configuration-driven training launcher: it reads a config,
selects a dataset and model architecture, derives a job name and run
directory, sets up checkpointing and tensorboard logging, selects a loss
and four auxiliary metrics, and starts a fit loop.  The embedding below
translates each piece of orchestration logic into an executable Lean
definition and proves the spec's claims about them.
-/

namespace Interlacer

/-- Configuration attributes read by `train.py` from the parsed
`TrainingConfig` object (`training_config.TrainingConfig`; its parser is
external, the script only reads these attributes).  Machine integers are
modelled as `Nat`, the corruption fraction as `Rat`. -/
structure TrainingConfig where
  dataset : String
  task : String
  input_domain : String
  output_domain : String
  corruption_frac : Rat
  batch_size : Nat
  architecture : String
  nonlinearity : String
  kernel_size : Nat
  num_features : Nat
  num_layers : Nat
  loss_type : String
  loss : String
  num_epochs : Nat
  job_name : String
deriving DecidableEq, Repr

/-- Opaque handles for the loss objects produced by the external `losses`
module.  The script only builds them with a `(domain, kind)` argument pair
and passes them around, so a constructor application records exactly which
factory was called with which arguments. -/
inductive LossFn where
  | imageLoss (domain : String) (kind : String)
  | fourierLoss (domain : String) (kind : String)
  | imageMagLoss (domain : String) (kind : String)
deriving DecidableEq, Repr

/-- Loss selection in `train.py`:
`if loss_type == 'image': image_loss(output_domain, loss)`
`elif loss_type == 'freq': fourier_loss(output_domain, loss)`
`else: raise ValueError('Unrecognized loss type.')`. -/
def selectLoss (c : TrainingConfig) : Except String LossFn :=
  if c.loss_type = "image" then
    Except.ok (LossFn.imageLoss c.output_domain c.loss)
  else if c.loss_type = "freq" then
    Except.ok (LossFn.fourierLoss c.output_domain c.loss)
  else
    Except.error "Unrecognized loss type."

/-- The model-compilation step of `train.py`: the selected loss is passed
as the `loss` argument of `model.compile`, and the four fixed auxiliary
losses `fourier_l1, fourier_l2, image_l1, image_l2` are passed as the
`metrics` list.  (The script also constructs `image_mag_l1` but never uses
it; it is omitted because no observable state records it.)  The result
pairs the compiled loss with the metrics list. -/
def compileModel (c : TrainingConfig) : Except String (LossFn × List LossFn) :=
  match selectLoss c with
  | Except.error e => Except.error e
  | Except.ok used_loss =>
      let fourier_l1 := LossFn.fourierLoss c.output_domain "L1"
      let fourier_l2 := LossFn.fourierLoss c.output_domain "L2"
      let image_l1 := LossFn.imageLoss c.output_domain "L1"
      let image_l2 := LossFn.imageLoss c.output_domain "L2"
      Except.ok (used_loss, [fourier_l1, fourier_l2, image_l1, image_l2])

/-- Opaque handles for the network objects built by the external `models`
module; each constructor records the builder called and its arguments
(input shape `(n, n, 2)`, nonlinearity, kernel size, feature count, layer
count). -/
inductive Model where
  | convNoResidual (shape : Nat × Nat × Nat) (nonlinearity : String)
      (kernel_size : Nat) (num_features : Nat) (num_layers : Nat)
  | convResidual (shape : Nat × Nat × Nat) (nonlinearity : String)
      (kernel_size : Nat) (num_features : Nat) (num_layers : Nat)
  | interlacerResidual (shape : Nat × Nat × Nat) (nonlinearity : String)
      (kernel_size : Nat) (num_features : Nat) (num_layers : Nat)
deriving DecidableEq, Repr

/-- Architecture dispatch in `train.py`: an `if`/`elif`/`elif` chain on
`exp_config.architecture` with NO `else` branch.  When none of the three
recognized names matches, the Python variable `model` is simply never
bound and execution continues; that silent fall-through is modelled as
`none`. -/
def pickArchitecture (c : TrainingConfig) (n : Nat) : Option Model :=
  if c.architecture = "CONV" then
    some (Model.convNoResidual (n, n, 2) c.nonlinearity c.kernel_size
      c.num_features c.num_layers)
  else if c.architecture = "CONV_RESIDUAL" then
    some (Model.convResidual (n, n, 2) c.nonlinearity c.kernel_size
      c.num_features c.num_layers)
  else if c.architecture = "INTERLACER_RESIDUAL" then
    some (Model.interlacerResidual (n, n, 2) c.nonlinearity c.kernel_size
      c.num_features c.num_layers)
  else
    none

/-- Job-name construction in `train.py`:
`job_name = exp_config.job_name`;
`if debug: job_name = 'debug_job' + str(np.random.randint(0, 10))`;
`if suffix is not None: job_name += '*' + suffix`.
The value drawn by `np.random.randint(0, 10)` (uniform on 0..9) is passed
in as `rand_draw`. -/
def buildJobName (cfg_job_name : String) (debug : Bool) (rand_draw : Nat)
    (suffix : Option String) : String :=
  let job_name := cfg_job_name
  let job_name := if debug then "debug_job" ++ toString rand_draw else job_name
  match suffix with
  | some s => job_name ++ "*" ++ s
  | none => job_name

/-- Run-directory root construction in `train.py`:
`dir_path = filepaths.TRAIN_DIR`;
`if experiment is not None and not debug: dir_path += experiment + '/'`. -/
def buildDirPath (train_dir : String) (experiment : Option String)
    (debug : Bool) : String :=
  match experiment with
  | some e => if debug then train_dir else train_dir ++ e ++ "/"
  | none => train_dir

/-- The sizing of the fit loop chosen by `train.py`.  In the non-debug
branch `steps_per_epoch = int(img_train.shape[0] / batch_size)`, i.e. the
floor of the division for the nonnegative operands involved, modelled by
`Nat` division. -/
structure FitSizing where
  num_epochs : Nat
  steps_per_epoch : Nat
  val_steps : Nat
deriving DecidableEq, Repr

/-- Fit-loop sizing in `train.py`:
`if debug: num_epochs = 5; steps_per_epoch = 2; val_steps = 1`
`else: num_epochs = exp_config.num_epochs;`
`steps_per_epoch = int(img_train.shape[0] / exp_config.batch_size);`
`val_steps = 8`. -/
def fitSizing (debug : Bool) (cfg_num_epochs : Nat) (train_set_size : Nat)
    (batch_size : Nat) : FitSizing :=
  if debug then
    { num_epochs := 5, steps_per_epoch := 2, val_steps := 1 }
  else
    { num_epochs := cfg_num_epochs,
      steps_per_epoch := train_set_size / batch_size,
      val_steps := 8 }

/-- The filesystem as the set of paths that exist, modelled as the list of
paths created so far (creation order newest-first; duplicates are
harmless since existence is membership). -/
structure FS where
  paths : List String
deriving DecidableEq, Repr

/-- `os.path.exists`. -/
def osPathExists (fs : FS) (p : String) : Bool :=
  fs.paths.contains p

/-- Record a path as existing (directory creation or file write). -/
def fsAdd (fs : FS) (p : String) : FS :=
  { paths := p :: fs.paths }

/-- `os.path.join` for the POSIX paths used by the script: an absolute
second component replaces the first; otherwise the components are joined,
inserting `/` unless the first component is empty or already ends with
the separator.  The separator tests are written over the character list
so that they evaluate by kernel reduction. -/
def osPathJoin (a b : String) : String :=
  if b.data.head? = some '/' then b
  else if a.data = [] then b
  else if a.data.getLast? = some '/' then a ++ b
  else a ++ "/" ++ b

/-- `os.makedirs(p)` with the default `exist_ok=False`: raises
`FileExistsError` when the path already exists, otherwise creates it. -/
def osMakedirs (fs : FS) (p : String) : Except String FS :=
  if osPathExists fs p then Except.error "FileExistsError"
  else Except.ok (fsAdd fs p)

/-- Checkpoint-directory creation in `train.py`:
`if not os.path.exists(checkpoint_dir): os.makedirs(checkpoint_dir)`. -/
def createCheckpointDir (fs : FS) (checkpoint_dir : String) : Except String FS :=
  if ¬ osPathExists fs checkpoint_dir then osMakedirs fs checkpoint_dir
  else Except.ok fs

/-- Tensorboard-directory creation in `train.py`:
`if os.path.exists(tb_dir): raise ValueError('Tensorboard logs have already been created under this name.')`
`else: os.makedirs(tb_dir)`. -/
def createTensorboardDir (fs : FS) (tb_dir : String) : Except String FS :=
  if osPathExists fs tb_dir then
    Except.error "Tensorboard logs have already been created under this name."
  else osMakedirs fs tb_dir

/-- The filesystem side effects performed by the run-directory setup, in
the order the script performs them. -/
inductive Effect where
  | makeCheckpointDir (path : String)
  | copyConfigFile (src : String) (dst : String)
  | writeSummaryFile (path : String)
  | makeTensorboardDir (path : String)
deriving DecidableEq, Repr

/-- Result of the run-directory setup: the filesystem reached, the trace
of side effects performed, and the error raised (if any) — `error = some
msg` models the uncaught `ValueError` aborting the script at that point,
with `fs` and `trace` recording what had already happened. -/
structure RunOutcome where
  fs : FS
  trace : List Effect
  error : Option String
deriving DecidableEq, Repr

/-- The message of the `ValueError` raised when the tensorboard directory
already exists (`RunExistsError` in the spec's taxonomy). -/
def tensorboardExistsMsg : String :=
  "Tensorboard logs have already been created under this name."

/-- `checkpoint_dir = os.path.join(dir_path, job_name)`. -/
def checkpointDirOf (dir_path job_name : String) : String :=
  osPathJoin dir_path job_name

/-- Destination of the config copy:
`os.path.join(checkpoint_dir, job_name + '_config.ini')`. -/
def configDstOf (dir_path job_name : String) : String :=
  osPathJoin (checkpointDirOf dir_path job_name) (job_name ++ "_config.ini")

/-- `summary_file = os.path.join(checkpoint_dir, 'summary.txt')`. -/
def summaryFileOf (dir_path job_name : String) : String :=
  osPathJoin (checkpointDirOf dir_path job_name) "summary.txt"

/-- `tb_dir = os.path.join(checkpoint_dir, 'tensorboard/')`. -/
def tbDirOf (dir_path job_name : String) : String :=
  osPathJoin (checkpointDirOf dir_path job_name) "tensorboard/"

/-- The run-directory setup sequence of `train.py` (its filesystem side
effects, in program order):
1. `checkpoint_dir = os.path.join(dir_path, job_name)`;
   `if not os.path.exists(checkpoint_dir): os.makedirs(checkpoint_dir)`;
2. `copyfile(args.config, os.path.join(checkpoint_dir, job_name + '_config.ini'))`
   (`shutil.copyfile` overwrites an existing destination; the source
   config file exists because the script already read it);
3. `open(summary_file, 'w')` writing the model summary to
   `os.path.join(checkpoint_dir, 'summary.txt')`;
4. `tb_dir = os.path.join(checkpoint_dir, 'tensorboard/')`;
   `if os.path.exists(tb_dir): raise ValueError(...) else: os.makedirs(tb_dir)`. -/
def runDirector (fs0 : FS) (dir_path job_name config_src : String) : RunOutcome :=
  let checkpoint_dir := checkpointDirOf dir_path job_name
  let fs1 := if ¬ osPathExists fs0 checkpoint_dir then fsAdd fs0 checkpoint_dir else fs0
  let trace1 : List Effect :=
    if ¬ osPathExists fs0 checkpoint_dir then [Effect.makeCheckpointDir checkpoint_dir]
    else []
  let config_dst := configDstOf dir_path job_name
  let fs2 := fsAdd fs1 config_dst
  let summary_file := summaryFileOf dir_path job_name
  let fs3 := fsAdd fs2 summary_file
  let tb_dir := tbDirOf dir_path job_name
  if osPathExists fs3 tb_dir then
    { fs := fs3
      trace := trace1 ++ [Effect.copyConfigFile config_src config_dst,
        Effect.writeSummaryFile summary_file]
      error := some tensorboardExistsMsg }
  else
    { fs := fsAdd fs3 tb_dir
      trace := trace1 ++ [Effect.copyConfigFile config_src config_dst,
        Effect.writeSummaryFile summary_file, Effect.makeTensorboardDir tb_dir]
      error := none }

/-- A fixed valid configuration used to instantiate theorems at concrete
inputs. -/
def baseConfig : TrainingConfig :=
  { dataset := "MNIST"
    task := "undersample"
    input_domain := "FREQ"
    output_domain := "FREQ"
    corruption_frac := (3 : Rat) / 10
    batch_size := 32
    architecture := "CONV"
    nonlinearity := "relu"
    kernel_size := 3
    num_features := 32
    num_layers := 4
    loss_type := "image"
    loss := "L1"
    num_epochs := 20
    job_name := "run1" }

/-- A second configuration with the architecture field set to a string
outside the recognized set. -/
def unknownArchConfig : TrainingConfig :=
  { baseConfig with architecture := "UNKNOWN_NET" }

/-! ### Helper lemmas -/

theorem osPathExists_fsAdd_of (fs : FS) (p q : String)
    (h : osPathExists fs q = true) : osPathExists (fsAdd fs p) q = true := by
  simp [osPathExists, fsAdd, List.contains] at h ⊢
  exact Or.inr h

theorem osPathExists_fsAdd_self (fs : FS) (p : String) :
    osPathExists (fsAdd fs p) p = true := by
  simp [osPathExists, fsAdd, List.contains]

theorem toString_eq_singleton_digitChar (r : Nat) (h : r < 10) :
    toString r = String.singleton (Nat.digitChar r) := by
  interval_cases r <;> rfl

theorem digitChar_isDigit_of_lt (r : Nat) (h : r < 10) :
    (Nat.digitChar r).isDigit = true := by
  interval_cases r <;> decide

/-! ### Claims -/

/-- C1: the claim states that an unrecognized architecture value makes
model construction fail with an explicit UnknownArchitectureError.  The
code's dispatch chain has no else branch: on an unrecognized name it
binds no model and raises nothing, evaluated here at a concrete failing
input.  This contradicts the spec's stated intent (the spec itself flags
the silent fall-through as a latent defect), so the claim is recorded as
a code bug; this theorem exhibits the divergent behavior. -/
theorem pickArchitecture_unknown_silent :
    pickArchitecture unknownArchConfig 28 = none := by
  decide

/-- C2: loss selection returns the Fourier-domain loss for the configured
output domain when loss_type is "freq", the image-domain loss when
loss_type is "image", and raises UnrecognizedLossTypeError exactly when
loss_type is neither of the two. -/
theorem selectLoss_spec (c : TrainingConfig) :
    (c.loss_type = "freq" →
      selectLoss c = Except.ok (LossFn.fourierLoss c.output_domain c.loss)) ∧
    (c.loss_type = "image" →
      selectLoss c = Except.ok (LossFn.imageLoss c.output_domain c.loss)) ∧
    (selectLoss c = Except.error "Unrecognized loss type." ↔
      c.loss_type ≠ "image" ∧ c.loss_type ≠ "freq") := by
  unfold selectLoss
  by_cases h1 : c.loss_type = "image"
  · simp [h1]
  · by_cases h2 : c.loss_type = "freq"
    · simp [h1, h2]
    · simp [h1, h2]

theorem selectLoss_spec_witness :
    selectLoss { baseConfig with loss_type := "freq" } =
      Except.ok (LossFn.fourierLoss "FREQ" "L1") ∧
    selectLoss { baseConfig with loss_type := "other" } =
      Except.error "Unrecognized loss type." :=
  ⟨(selectLoss_spec { baseConfig with loss_type := "freq" }).1 rfl,
   (selectLoss_spec { baseConfig with loss_type := "other" }).2.2.mpr (by decide)⟩

/-- C3: with debug off, a provided suffix is appended to the config's base
job name with a literal asterisk separator; in particular base "run1" with
suffix "trial1" yields "run1*trial1". -/
theorem jobName_suffix_append (b s : String) (r : Nat) :
    buildJobName b false r (some s) = b ++ "*" ++ s ∧
    buildJobName "run1" false r (some "trial1") = "run1*trial1" :=
  ⟨rfl, rfl⟩

/-- C5: the fit loop is sized as a total function of the debug flag —
debug gives epochs 5, 2 steps per epoch and 1 validation step; non-debug
gives the config's epoch count, floor(train_set_size / batch_size) steps
per epoch and 8 validation steps regardless of config, with 6400/32 = 200
as the concrete instance. -/
theorem fitSizing_spec (e t b : Nat) :
    fitSizing true e t b = { num_epochs := 5, steps_per_epoch := 2, val_steps := 1 } ∧
    fitSizing false e t b =
      { num_epochs := e, steps_per_epoch := t / b, val_steps := 8 } ∧
    fitSizing false 20 6400 32 =
      { num_epochs := 20, steps_per_epoch := 200, val_steps := 8 } :=
  ⟨rfl, rfl, by decide⟩

/-- C10: with debug on and a suffix provided, the suffix rule still
applies after the debug override: the job name is "debug_job" followed by
the drawn value d (in 0..9, since the draw is uniform on 0..9), an
asterisk, and the suffix. -/
theorem debug_jobName_with_suffix (b s : String) (r : Nat) (h : r < 10) :
    ∃ d : Nat, d ≤ 9 ∧
      buildJobName b true r (some s) = "debug_job" ++ toString d ++ "*" ++ s :=
  ⟨r, by omega, rfl⟩

theorem debug_jobName_with_suffix_witness :
    ∃ d : Nat, d ≤ 9 ∧
      buildJobName "run1" true 3 (some "trial1") =
        "debug_job" ++ toString d ++ "*" ++ "trial1" :=
  debug_jobName_with_suffix "run1" "trial1" 3 (by decide)

/-- C4: with debug on, the job name starts with "debug_job" followed by a
single decimal digit (the draw of np.random.randint(0, 10) lies in 0..9),
and the experiment argument is ignored in the run-directory root; the
experiment segment is appended exactly when experiment is provided and
debug is off. -/
theorem debug_jobName_ignores_experiment (b td e : String) (r : Nat)
    (suffix experiment : Option String) (h : r < 10) :
    (∃ c : Char, c.isDigit = true ∧ ∃ rest : String,
      buildJobName b true r suffix = "debug_job" ++ String.singleton c ++ rest) ∧
    buildDirPath td experiment true = td ∧
    buildDirPath td (some e) false = td ++ e ++ "/" ∧
    buildDirPath td none false = td := by
  refine ⟨⟨Nat.digitChar r, digitChar_isDigit_of_lt r h, ?_⟩,
    by cases experiment <;> rfl, rfl, rfl⟩
  cases suffix with
  | none =>
      exact ⟨"", by simp [buildJobName, toString_eq_singleton_digitChar r h]⟩
  | some s =>
      exact ⟨"*" ++ s, by
        simp [buildJobName, toString_eq_singleton_digitChar r h,
          String.append_assoc]⟩

theorem debug_jobName_ignores_experiment_witness :
    (∃ c : Char, c.isDigit = true ∧ ∃ rest : String,
      buildJobName "run1" true 7 (some "trial1") =
        "debug_job" ++ String.singleton c ++ rest) ∧
    buildDirPath "tr/" (some "exp1") true = "tr/" ∧
    buildDirPath "tr/" (some "exp1") false = "tr/" ++ "exp1" ++ "/" ∧
    buildDirPath "tr/" none false = "tr/" :=
  debug_jobName_ignores_experiment "run1" "tr/" "exp1" 7 (some "trial1")
    (some "exp1") (by decide)

/-- C7: checkpoint-directory creation is idempotent: it succeeds from any
filesystem state, and running it again on the resulting state succeeds as
well without changing anything. -/
theorem checkpointDir_idempotent (fs : FS) (p : String) :
    ∃ fs1, createCheckpointDir fs p = Except.ok fs1 ∧
      createCheckpointDir fs1 p = Except.ok fs1 := by
  by_cases h : osPathExists fs p = true
  · exact ⟨fs, by simp [createCheckpointDir, h], by simp [createCheckpointDir, h]⟩
  · refine ⟨fsAdd fs p, ?_, ?_⟩
    · simp [createCheckpointDir, osMakedirs, h]
    · simp [createCheckpointDir, osPathExists_fsAdd_self]

/-- C8: whenever compilation succeeds, the metrics bound at compile time
are exactly the four fixed auxiliary losses — Fourier-L1, Fourier-L2,
image-L1, image-L2 for the configured output domain — independent of the
configured loss_type and loss, while the training loss handed to the
optimizer is the separately selected primary loss. -/
theorem compileModel_metrics (c : TrainingConfig) (lf : LossFn) (ms : List LossFn)
    (h : compileModel c = Except.ok (lf, ms)) :
    ms = [LossFn.fourierLoss c.output_domain "L1",
      LossFn.fourierLoss c.output_domain "L2",
      LossFn.imageLoss c.output_domain "L1",
      LossFn.imageLoss c.output_domain "L2"] ∧
    ms.length = 4 ∧
    selectLoss c = Except.ok lf := by
  unfold compileModel at h
  split at h
  · cases h
  · next l heq =>
      simp only [Except.ok.injEq, Prod.mk.injEq] at h
      obtain ⟨h1, h2⟩ := h
      subst h1
      subst h2
      exact ⟨rfl, rfl, heq⟩

theorem compileModel_metrics_witness :
    [LossFn.fourierLoss "FREQ" "L1", LossFn.fourierLoss "FREQ" "L2",
      LossFn.imageLoss "FREQ" "L1", LossFn.imageLoss "FREQ" "L2"] =
      [LossFn.fourierLoss baseConfig.output_domain "L1",
        LossFn.fourierLoss baseConfig.output_domain "L2",
        LossFn.imageLoss baseConfig.output_domain "L1",
        LossFn.imageLoss baseConfig.output_domain "L2"] ∧
    ([LossFn.fourierLoss "FREQ" "L1", LossFn.fourierLoss "FREQ" "L2",
      LossFn.imageLoss "FREQ" "L1", LossFn.imageLoss "FREQ" "L2"] : List LossFn).length = 4 ∧
    selectLoss baseConfig = Except.ok (LossFn.imageLoss "FREQ" "L1") :=
  compileModel_metrics baseConfig (LossFn.imageLoss "FREQ" "L1")
    [LossFn.fourierLoss "FREQ" "L1", LossFn.fourierLoss "FREQ" "L2",
      LossFn.imageLoss "FREQ" "L1", LossFn.imageLoss "FREQ" "L2"] rfl

theorem runDirector_error_of_tb_exists (fs0 : FS) (dp jn cs : String)
    (h : osPathExists fs0 (tbDirOf dp jn) = true) :
    (runDirector fs0 dp jn cs).error = some tensorboardExistsMsg := by
  unfold runDirector
  by_cases hcd : osPathExists fs0 (checkpointDirOf dp jn) = true
  · have h3 : osPathExists
        (fsAdd (fsAdd fs0 (configDstOf dp jn)) (summaryFileOf dp jn))
        (tbDirOf dp jn) = true :=
      osPathExists_fsAdd_of _ _ _ (osPathExists_fsAdd_of _ _ _ h)
    simp [hcd, h3]
  · have h3 : osPathExists
        (fsAdd (fsAdd (fsAdd fs0 (checkpointDirOf dp jn)) (configDstOf dp jn))
          (summaryFileOf dp jn))
        (tbDirOf dp jn) = true :=
      osPathExists_fsAdd_of _ _ _ (osPathExists_fsAdd_of _ _ _
        (osPathExists_fsAdd_of _ _ _ h))
    simp [hcd, h3]

theorem runDirector_tb_exists_of_ok (fs0 : FS) (dp jn cs : String)
    (h : (runDirector fs0 dp jn cs).error = none) :
    osPathExists (runDirector fs0 dp jn cs).fs (tbDirOf dp jn) = true := by
  unfold runDirector at h ⊢
  by_cases hcd : osPathExists fs0 (checkpointDirOf dp jn) = true
  · by_cases htb : osPathExists
        (fsAdd (fsAdd fs0 (configDstOf dp jn)) (summaryFileOf dp jn))
        (tbDirOf dp jn) = true
    · simp [hcd, htb] at h
    · simp [hcd, htb, osPathExists_fsAdd_self]
  · by_cases htb : osPathExists
        (fsAdd (fsAdd (fsAdd fs0 (checkpointDirOf dp jn)) (configDstOf dp jn))
          (summaryFileOf dp jn))
        (tbDirOf dp jn) = true
    · simp [hcd, htb] at h
    · simp [hcd, htb, osPathExists_fsAdd_self]

/-- C6: whenever the tensorboard directory for the job already exists, the
run-directory setup aborts with the RunExistsError ValueError rather than
overwriting the prior run's logs; in particular a second run of the setup
for the same job name aborts after a first successful one. -/
theorem tensorboard_no_clobber (fs : FS) (dp jn cs : String) :
    (osPathExists fs (tbDirOf dp jn) = true →
      (runDirector fs dp jn cs).error = some tensorboardExistsMsg) ∧
    ((runDirector fs dp jn cs).error = none →
      (runDirector (runDirector fs dp jn cs).fs dp jn cs).error =
        some tensorboardExistsMsg) :=
  ⟨fun h => runDirector_error_of_tb_exists fs dp jn cs h,
   fun h => runDirector_error_of_tb_exists _ dp jn cs
     (runDirector_tb_exists_of_ok fs dp jn cs h)⟩

theorem tensorboard_no_clobber_witness :
    (runDirector (FS.mk ["tr/job2/tensorboard/"]) "tr" "job2" "cfg.ini").error =
      some tensorboardExistsMsg :=
  (tensorboard_no_clobber (FS.mk ["tr/job2/tensorboard/"]) "tr" "job2" "cfg.ini").1
    (by decide)

/-- C9: the run-directory setup performs its side effects in the fixed
order checkpoint-directory creation (skipped only when the directory is
already there), config copy, summary write, tensorboard creation (only on
success); and when it aborts with the RunExistsError, the checkpoint
directory, the config copy and the summary file have already been
produced — the abort is not atomic with respect to the run directory. -/
theorem runDirector_effect_order (fs0 : FS) (dp jn cs : String) :
    (runDirector fs0 dp jn cs).trace =
      (if osPathExists fs0 (checkpointDirOf dp jn) = true then ([] : List Effect)
        else [Effect.makeCheckpointDir (checkpointDirOf dp jn)]) ++
      [Effect.copyConfigFile cs (configDstOf dp jn),
        Effect.writeSummaryFile (summaryFileOf dp jn)] ++
      (if (runDirector fs0 dp jn cs).error = none then
        [Effect.makeTensorboardDir (tbDirOf dp jn)]
      else ([] : List Effect)) ∧
    ((runDirector fs0 dp jn cs).error = some tensorboardExistsMsg →
      osPathExists (runDirector fs0 dp jn cs).fs (checkpointDirOf dp jn) = true ∧
      osPathExists (runDirector fs0 dp jn cs).fs (configDstOf dp jn) = true ∧
      osPathExists (runDirector fs0 dp jn cs).fs (summaryFileOf dp jn) = true) := by
  by_cases hcd : osPathExists fs0 (checkpointDirOf dp jn) = true
  · by_cases htb : osPathExists
        (fsAdd (fsAdd fs0 (configDstOf dp jn)) (summaryFileOf dp jn))
        (tbDirOf dp jn) = true
    · refine ⟨by simp [runDirector, hcd, htb], fun h => ?_⟩
      simp only [runDirector, hcd]
      simp [hcd, htb, osPathExists_fsAdd_self,
        osPathExists_fsAdd_of _ _ _ (osPathExists_fsAdd_self fs0 (configDstOf dp jn)),
        osPathExists_fsAdd_of _ _ _ (osPathExists_fsAdd_of _ _ _ hcd)]
    · refine ⟨by simp [runDirector, hcd, htb], fun h => ?_⟩
      simp [runDirector, hcd, htb] at h
  · by_cases htb : osPathExists
        (fsAdd (fsAdd (fsAdd fs0 (checkpointDirOf dp jn)) (configDstOf dp jn))
          (summaryFileOf dp jn))
        (tbDirOf dp jn) = true
    · refine ⟨by simp [runDirector, hcd, htb], fun h => ?_⟩
      simp [runDirector, hcd, htb, osPathExists_fsAdd_self,
        osPathExists_fsAdd_of _ _ _
          (osPathExists_fsAdd_self (fsAdd fs0 (checkpointDirOf dp jn)) (configDstOf dp jn)),
        osPathExists_fsAdd_of _ _ _ (osPathExists_fsAdd_of _ _ _
          (osPathExists_fsAdd_self fs0 (checkpointDirOf dp jn)))]
    · refine ⟨by simp [runDirector, hcd, htb], fun h => ?_⟩
      simp [runDirector, hcd, htb] at h

theorem runDirector_effect_order_witness :
    osPathExists (runDirector (FS.mk ["tr/run9/tensorboard/"]) "tr" "run9" "c9.ini").fs
      (checkpointDirOf "tr" "run9") = true ∧
    osPathExists (runDirector (FS.mk ["tr/run9/tensorboard/"]) "tr" "run9" "c9.ini").fs
      (configDstOf "tr" "run9") = true ∧
    osPathExists (runDirector (FS.mk ["tr/run9/tensorboard/"]) "tr" "run9" "c9.ini").fs
      (summaryFileOf "tr" "run9") = true :=
  (runDirector_effect_order (FS.mk ["tr/run9/tensorboard/"]) "tr" "run9" "c9.ini").2
    (by decide)

end Interlacer
